import Mathlib

/-!
Verification development for the yogyface-concat-videos repository.

The repository is a small Python service (src/web_app.py, src/concat_videos.py)
that downloads videos from URLs, concatenates them with ffmpeg, and — when the
concatenated output exceeds a size budget — re-encodes it with a bounded ladder
of compression attempts.

This file is a shallow embedding of the code paths the claims are about.
External effects (HTTP downloads, ffprobe/ffmpeg subprocesses, the file system)
are abstracted as environment records whose fields give the outcome of each
external call; the control flow, comparisons and arithmetic of the Python code
are translated directly.  Python floats are modelled as exact rationals, and
Python `int(...)` truncation and `round(x, 1)` (round-half-to-even) are
modelled explicitly.
-/

namespace ConcatVideos

/-- A Python value as far as the code under study is concerned: the
`target_size_mb` parameter of `compress_video` is a number on the CLI path but
— because of the call `compress_video(output_path, temp_compressed, max_size_mb)`
in web_app.py line 273 — a string (the temp path) on the web path. -/
inductive PyVal where
  | num (q : ℚ)
  | str (s : String)
deriving DecidableEq, Repr

/-- The only Python exception kind the model needs: comparing a float with a
str (`original_mb <= target_size_mb` at concat_videos.py line 72) raises
TypeError. -/
inductive PyError where
  | typeError
deriving DecidableEq, Repr

/-- Executable floor on ℚ (kernel-reducible, unlike the `FloorRing`
projection); equal to `Int.floor` by `ratFloor_eq_floor`. -/
def ratFloor (q : ℚ) : ℤ := q.num / q.den

theorem ratFloor_eq_floor (q : ℚ) : ratFloor q = ⌊q⌋ := Rat.floor_def.symm

/-- Executable ceiling on ℚ; equal to `Int.ceil` by `ratCeil_eq_ceil`. -/
def ratCeil (q : ℚ) : ℤ := -ratFloor (-q)

theorem ratCeil_eq_ceil (q : ℚ) : ratCeil q = ⌈q⌉ := by
  rw [ratCeil, ratFloor_eq_floor, ← Int.ceil_neg, neg_neg]

/-- Python `int(...)` on a float: truncation toward zero. -/
def pyInt (q : ℚ) : ℤ := if 0 ≤ q then ratFloor q else ratCeil q

/-- Round-half-to-even to an integer, as Python `round` does. -/
def round_half_even (q : ℚ) : ℤ :=
  if q - ratFloor q < 1 / 2 then ratFloor q
  else if 1 / 2 < q - ratFloor q then ratFloor q + 1
  else if ratFloor q % 2 = 0 then ratFloor q else ratFloor q + 1

/-- Python `round(q, 1)`. -/
def pyRound1 (q : ℚ) : ℚ := (round_half_even (q * 10) : ℚ) / 10

/-- `size_bytes / (1024 * 1024)`, the MB conversion used throughout the code. -/
def bytes_to_mb (n : ℕ) : ℚ := (n : ℚ) / (1024 * 1024)

/-- concat_videos.py lines 46-53: `get_file_size_mb` returns
`os.path.getsize(p) / (1024*1024)` and catches OSError, returning 0.  The file
system is abstracted as a partial map from paths to byte sizes; `none` is any
path whose size cannot be read. -/
def get_file_size_mb (fs : String → Option ℕ) (file_path : String) : ℚ :=
  match fs file_path with
  | some size_bytes => (size_bytes : ℚ) / (1024 * 1024)
  | none => 0

/-- Outcome of one ffmpeg compression attempt (concat_videos.py lines 130-170):
nonzero return code, a 5-minute timeout, another exception, a missing output
file, or an output file of the given byte size. -/
inductive AttemptOutcome where
  | ffmpeg_error
  | timeout_expired
  | raised
  | no_output
  | output (size_bytes : ℕ)
deriving DecidableEq, Repr

/-- The per-attempt quality parameters hardcoded at concat_videos.py
lines 85-90 (the `name` strings are omitted; they are only printed). -/
structure AttemptParams where
  crf : ℕ
  preset : String
deriving DecidableEq, Repr

def compression_attempts : List AttemptParams :=
  [⟨23, "medium"⟩, ⟨25, "medium"⟩, ⟨27, "fast"⟩, ⟨30, "fast"⟩]

/-- concat_videos.py lines 98-103: per-attempt target bitrate.
`target_size_bits = target_size_mb * 8 * 1024 * 1024`;
`size_factor = 1.0 - attempt * 0.05` (attempt is 1-based);
`target_bitrate = int((target_size_bits * size_factor / duration) * 0.85)`.
No lower floor is applied anywhere. -/
def target_bitrate (target_size_mb duration : ℚ) (attempt : ℕ) : ℤ :=
  let target_size_bits : ℚ := target_size_mb * 8 * 1024 * 1024
  let size_factor : ℚ := 1 - (attempt : ℚ) * (5 / 100)
  let adjusted_target_bits := target_size_bits * size_factor
  pyInt (adjusted_target_bits / duration * (85 / 100))

/-- The encoding-relevant arguments of the ffmpeg command built at
concat_videos.py lines 111-124. -/
structure FfmpegCmd where
  crf : ℕ
  preset : String
  video_bitrate : ℤ
  maxrate : ℤ
  bufsize : ℤ
  audio_bitrate : String
deriving DecidableEq, Repr

def attempt_cmd (target_size_mb duration : ℚ) (attempt : ℕ) (p : AttemptParams) : FfmpegCmd :=
  let tb := target_bitrate target_size_mb duration attempt
  { crf := p.crf
    preset := p.preset
    video_bitrate := tb
    maxrate := pyInt ((tb : ℚ) * (12 / 10))
    bufsize := pyInt ((tb : ℚ) * 2)
    audio_bitrate := "96k" }

/-- Environment of `compress_video`: availability of the two binaries checked
by `check_ffmpeg_available`, the `get_video_duration` result, and the outcome
of each ffmpeg attempt (given its 1-based index and the command built for
it). -/
structure CompressEnv where
  ffmpeg_ok : Bool
  ffprobe_ok : Bool
  duration : Option ℚ
  attempt_result : ℕ → FfmpegCmd → AttemptOutcome

/-- concat_videos.py lines 225-232. -/
def check_ffmpeg_available (env : CompressEnv) : Bool :=
  env.ffmpeg_ok && env.ffprobe_ok

/-- concat_videos.py lines 217-223 (`check_ffmpeg` probes only ffmpeg). -/
def check_ffmpeg (env : CompressEnv) : Bool :=
  env.ffmpeg_ok

/-- Result of `compress_video`.  The Python function returns True/False;
`already_small` and `success _` are the two True cases.  On `success b` the
input file has been replaced in place (shutil.move at line 148) by the
compressed file of `b` bytes; on `already_small` and `failure` the input file
is untouched. -/
inductive CompressResult where
  | already_small
  | failure
  | success (final_bytes : ℕ)
deriving DecidableEq, Repr

def CompressResult.toBool : CompressResult → Bool
  | .failure => false
  | _ => true

/-- The attempt loop of concat_videos.py lines 95-170, over the (1-based
index, params) list.  An attempt whose ffmpeg run fails, times out, raises, or
leaves no output file falls through to the next attempt; an attempt whose
output is ≤ target replaces the input file and returns success; an oversized
output is deleted and the loop continues.  After the last attempt the function
returns False (lines 172-174). -/
def compress_attempt_loop (env : CompressEnv) (target_size_mb duration : ℚ) :
    List (ℕ × AttemptParams) → CompressResult
  | [] => .failure
  | (attempt, p) :: rest =>
    match env.attempt_result attempt (attempt_cmd target_size_mb duration attempt p) with
    | .output size_bytes =>
      if bytes_to_mb size_bytes ≤ target_size_mb then .success size_bytes
      else compress_attempt_loop env target_size_mb duration rest
    | _ => compress_attempt_loop env target_size_mb duration rest

/-- The 1-based enumeration `enumerate(compression_attempts, 1)` of
concat_videos.py line 95. -/
def enumerated_attempts : List (ℕ × AttemptParams) :=
  compression_attempts.enum.map (fun ip => (ip.1 + 1, ip.2))

/-- concat_videos.py lines 55-182, `compress_video(input_path, target_size_mb,
max_attempts)`.  `input_size_bytes` is the size of the file at `input_path`.
`target_size_mb` is a PyVal because the web caller passes a string here (see
`PyVal`).  Steps: tool check (line 63, returns False), the size comparison at
line 72 — which raises TypeError when the target is a string, and returns True
(already small) when the size is within target — duration lookup (lines 77-80,
`if not duration` is also taken for duration 0.0), then the attempt ladder.
The `max_attempts` parameter of the source is unused by its body and omitted. -/
def compress_video (env : CompressEnv) (input_size_bytes : ℕ) (target_size_mb : PyVal) :
    Except PyError CompressResult :=
  if ¬ check_ffmpeg_available env then .ok .failure
  else
    let original_mb := bytes_to_mb input_size_bytes
    match target_size_mb with
    | .str _ => .error .typeError
    | .num target =>
      if original_mb ≤ target then .ok .already_small
      else
        match env.duration with
        | none => .ok .failure
        | some d =>
          if d = 0 then .ok .failure
          else .ok (compress_attempt_loop env target d enumerated_attempts)

/-- Result of the CLI pipeline `process_videos_from_urls` (concat_videos.py
lines 250-326).  The Python return value is a pair; `ok s` is
`(True, success message)` where the message reports the final size `s` MB,
`err m` is `(False, m)`, `concat_failed` is the `return None, []` at line 304,
and `raised` marks an exception escaping the function (possible in principle
from `compress_video`, though not with a numeric target). -/
inductive CliResult where
  | ok (final_size_mb : ℚ)
  | err (msg : String)
  | concat_failed
  | raised
deriving DecidableEq, Repr

/-- Environment of the CLI pipeline: per-URL download and probe outcomes, the
byte size of each downloaded file (only index 0 is consulted, by the
single-file copy branch), the concatenation outcome (`none` = ffmpeg failure,
`some n` = output written with `n` bytes), and the compression environment. -/
structure CliEnv where
  downloadOk : ℕ → Bool
  probeOk : ℕ → Bool
  downloaded_size : ℕ → ℕ
  concat_result : Option ℕ
  compressEnv : CompressEnv

/-- The download loop of concat_videos.py lines 264-282: each URL must
download and probe as valid media; the first failure returns `(False, msg)`
naming that URL.  On success, returns the number of downloaded videos. -/
def cli_download_loop (env : CliEnv) : List String → ℕ → Except String ℕ
  | [], _ => .ok 0
  | url :: rest, i =>
    if env.downloadOk i then
      if env.probeOk i then
        match cli_download_loop env rest (i + 1) with
        | .ok k => .ok (k + 1)
        | .error m => .error m
      else .error ("Le fichier " ++ url ++ " ne semble pas être une vidéo valide")
    else .error ("Impossible de télécharger " ++ url)

/-- concat_videos.py lines 250-326.  After the downloads: two or more files
are concatenated (failure returns `None, []`), a single file is copied to the
output path; in both branches, if the resulting size exceeds `max_size_mb`,
`compress_video(output_path, max_size_mb)` runs (the correct two-argument
call, so the target is numeric) and on a True result the size is re-read;
compression failure keeps the file as is and still returns success. -/
def process_videos_from_urls (env : CliEnv) (urls : List String) (max_size_mb : ℚ) :
    CliResult :=
  if ¬ check_ffmpeg env.compressEnv then .err "ffmpeg n’est pas installé ou accessible"
  else
    match cli_download_loop env urls 0 with
    | .error m => .err m
    | .ok count =>
      if count = 0 then .err "Aucune vidéo n’a pu être téléchargée"
      else if 1 < count then
        match env.concat_result with
        | none => .concat_failed
        | some n =>
          let file_size := bytes_to_mb n
          if file_size > max_size_mb then
            match compress_video env.compressEnv n (.num max_size_mb) with
            | .error _ => .raised
            | .ok r =>
              match r with
              | .success b => .ok (bytes_to_mb b)
              | .already_small => .ok (bytes_to_mb n)
              | .failure => .ok (bytes_to_mb n)
          else .ok file_size
      else
        let n := env.downloaded_size 0
        let file_size := bytes_to_mb n
        if file_size > max_size_mb then
          match compress_video env.compressEnv n (.num max_size_mb) with
          | .error _ => .raised
          | .ok r =>
            match r with
            | .success b => .ok (bytes_to_mb b)
            | .already_small => .ok (bytes_to_mb n)
            | .failure => .ok (bytes_to_mb n)
        else .ok file_size

end ConcatVideos

namespace WebApp

open ConcatVideos

/-- The job status strings used by web_app.py. -/
inductive JobStatus where
  | queued
  | downloading_videos
  | downloading_video (i n : ℕ)
  | concatenating_videos
  | compressing_video
  | completed
  | failed
deriving DecidableEq, Repr

/-- One record of the `jobs` dict (web_app.py line 24): the keys assigned
across the code, absent keys modelled as `none`. -/
structure Job where
  status : JobStatus
  created_at : ℚ
  error : Option String := none
  output_file : Option String := none
  output_filename : Option String := none
  file_size : Option ℚ := none
  original_size : Option ℚ := none
  was_compressed : Option Bool := none
  compression_ratio : Option ℚ := none
deriving DecidableEq, Repr

/-- The process-wide job registry, as an association list with newest binding
first (dict assignment = cons; lookup takes the first match). -/
abbrev JobRegistry := List (String × Job)

/-- Environment of one job worker: per-URL download and probe outcomes, the
concatenation outcome (`none` = nonzero ffmpeg exit or exception, `some n` =
output written with `n` bytes), and the compression environment. -/
structure WorkerEnv where
  downloadOk : ℕ → Bool
  probeOk : ℕ → Bool
  concat_result : Option ℕ
  compressEnv : CompressEnv

/-- web_app.py line 288: `((original_size - final_size) / original_size) * 100`
rounded to one decimal (line 289).  No clamping is applied for
`final_size ≥ original_size`. -/
def compression_ratio_calc (original_size final_size : ℚ) : ℚ :=
  pyRound1 ((original_size - final_size) / original_size * 100)

/-- Result of `concatenate_videos_with_tracking`: the boolean return value,
the job record after the function's writes, and the byte size of the file at
`output_path` when one was written. -/
structure TrackingOut where
  ok : Bool
  job : Job
  output_bytes : Option ℕ
deriving Repr

/-- web_app.py lines 235-318.  On concat success the original size and
`was_compressed := false` are recorded; an oversized output moves the job to
`compressing_video` and calls
`compress_video(output_path, temp_compressed, max_size_mb)` — binding the
string `temp_compressed` to the `target_size_mb` parameter, so the size
comparison inside `compress_video` raises TypeError, which the enclosing
`except Exception` turns into a False return (line 313-315).  If
`compress_video` instead returns normally (e.g. tools missing), the promote
branch at lines 276-296 tests `os.path.exists(temp_compressed)`;
`compress_video` never creates a file at `temp_compressed` (it writes to a
fresh `tempfile.mktemp` path and moves it onto its own input), so that test is
false and control reaches the keep-original branch (lines 297-304), which
records `compression_ratio = 0` and returns True. -/
def concatenate_videos_with_tracking (env : WorkerEnv) (output_path : String)
    (max_size_mb : ℚ) (j : Job) : TrackingOut :=
  match env.concat_result with
  | none => ⟨false, j, none⟩
  | some n =>
    let original_size := bytes_to_mb n
    let j := { j with original_size := some (pyRound1 original_size),
                      was_compressed := some false }
    if original_size > max_size_mb then
      let j := { j with status := .compressing_video }
      let temp_compressed := output_path ++ ".compressed.mp4"
      match compress_video env.compressEnv n (.str temp_compressed) with
      | .error _ => ⟨false, j, some n⟩
      | .ok _ => ⟨true, { j with compression_ratio := some 0 }, some n⟩
    else ⟨true, j, some n⟩

/-- The download loop of web_app.py lines 183-205, carrying the absolute URL
index.  Returns `some (job, k)` when the job failed after attempting `k`
downloads, `none` when every URL downloaded and probed successfully. -/
def download_loop (env : WorkerEnv) (n : ℕ) : List String → ℕ → Job → Option (Job × ℕ)
  | [], _, _ => none
  | url :: rest, i, j =>
    let j := { j with status := .downloading_video (i + 1) n }
    if env.downloadOk i then
      if env.probeOk i then download_loop env n rest (i + 1) j
      else some ({ j with status := .failed,
                          error := some ("Invalid video file: " ++ url) }, i + 1)
    else some ({ j with status := .failed,
                        error := some ("Failed to download: " ++ url) }, i + 1)

/-- Result of `process_concatenation`: the final job record, whether the
per-job temp directory was removed before exit, and how many URLs a download
was attempted for. -/
structure WorkerResult where
  job : Job
  temp_dir_removed : Bool
  processed : ℕ
deriving Repr

/-- web_app.py lines 173-233, the background worker for one job.  A temp
directory is created at line 179; `shutil.rmtree(temp_dir)` appears only at
line 229, after the concatenation branch — the early `return`s on download
failure, invalid media and fewer than two videos (lines 201, 205, 210) and
the `except` path (lines 231-233) skip it. -/
def process_concatenation (env : WorkerEnv) (job_id : String) (urls : List String)
    (output_name : String) (max_size_mb : ℚ) (j : Job) : WorkerResult :=
  let j := { j with status := .downloading_videos }
  match download_loop env urls.length urls 0 j with
  | some (jf, k) => ⟨jf, false, k⟩
  | none =>
    if urls.length < 2 then
      ⟨{ j with status := .failed,
                error := some "Need at least 2 valid videos to concatenate" },
        false, urls.length⟩
    else
      let j := { j with status := .concatenating_videos }
      let output_path := "/tmp/videos/" ++ job_id ++ "_" ++ output_name
      let t := concatenate_videos_with_tracking env output_path max_size_mb j
      if t.ok then
        let final_bytes := t.output_bytes.getD 0
        ⟨{ t.job with status := .completed,
                      output_file := some output_path,
                      output_filename := some output_name,
                      file_size := some (pyRound1 (bytes_to_mb final_bytes)) },
          true, urls.length⟩
      else
        ⟨{ t.job with status := .failed,
                      error := some "Failed to concatenate videos" },
          true, urls.length⟩

/-- A request body for POST /api/concatenate, with the defaults of
web_app.py lines 329-333 already applied. -/
structure SubmitRequest where
  urls : List String
  output_name : String
  max_size_mb : ℚ
  sync : Bool

/-- Response of POST /api/concatenate (web_app.py lines 325-386). -/
inductive ApiResponse where
  | bad_request (msg : String)
  | sync_completed (job_id : String) (file_size : Option ℚ) (was_compressed : Bool)
  | sync_failed (job_id : String) (error_msg : String)
  | async_queued (job_id : String) (max_size_mb : ℚ)
deriving Repr

/-- web_app.py lines 325-386.  Validation happens before the job record is
created at lines 342-346: fewer than two URLs, then the 10-500 MB budget
bounds.  `now` is `time.time()` and `new_job_id` the fresh uuid.  In sync
mode the worker runs inline; in async mode the response is returned with the
job still queued (the thread's later effect is not part of this function's
result). -/
def concatenate_api (env : WorkerEnv) (now : ℚ) (new_job_id : String)
    (req : SubmitRequest) (jobs : JobRegistry) : ApiResponse × JobRegistry :=
  if req.urls.length < 2 then (.bad_request "At least 2 URLs required", jobs)
  else if req.max_size_mb < 10 ∨ req.max_size_mb > 500 then
    (.bad_request "max_size_mb must be between 10 and 500", jobs)
  else
    let j0 : Job := { status := .queued, created_at := now }
    if req.sync then
      let r := process_concatenation env new_job_id req.urls req.output_name req.max_size_mb j0
      let jobs1 := (new_job_id, r.job) :: jobs
      if r.job.status = .completed then
        (.sync_completed new_job_id r.job.file_size (r.job.was_compressed.getD false), jobs1)
      else
        (.sync_failed new_job_id (r.job.error.getD "Unknown error"), jobs1)
    else
      (.async_queued new_job_id req.max_size_mb, (new_job_id, j0) :: jobs)

/-- Response of GET /api/download/<job_id> (web_app.py lines 429-443). -/
inductive DownloadResult where
  | job_not_found
  | not_completed
  | file_not_found
  | file (path : String) (download_name : String)
deriving DecidableEq, Repr

/-- web_app.py lines 429-443: unknown job → 404; job not `completed` → 400
error; missing output file → 404; otherwise the file is served. -/
def download_video_file (jobs : JobRegistry) (file_exists : String → Bool)
    (job_id : String) : DownloadResult :=
  match jobs.lookup job_id with
  | none => .job_not_found
  | some job =>
    if job.status ≠ .completed then .not_completed
    else
      match job.output_file with
      | none => .file_not_found
      | some p =>
        if ¬ file_exists p then .file_not_found
        else .file p (job.output_filename.getD "concatenated_video.mp4")

/-- A worker environment in which every external call fails; used to
instantiate theorems whose conclusion does not depend on the environment. -/
def trivialEnv : WorkerEnv where
  downloadOk := fun _ => false
  probeOk := fun _ => false
  concat_result := none
  compressEnv :=
    { ffmpeg_ok := false, ffprobe_ok := false, duration := none
      attempt_result := fun _ _ => .ffmpeg_error }

end WebApp

namespace Claims

open ConcatVideos WebApp

/-- C7: for every submission whose size budget is below 10 MB or above 500 MB,
the submit endpoint rejects the request with an error response before any job
record is created, leaving the job registry unchanged. -/
theorem C7_budget_out_of_range_rejected (env : WorkerEnv) (now : ℚ) (new_job_id : String)
    (req : SubmitRequest) (jobs : JobRegistry)
    (h : req.max_size_mb < 10 ∨ req.max_size_mb > 500) :
    (∃ msg, (concatenate_api env now new_job_id req jobs).1 = .bad_request msg) ∧
    (concatenate_api env now new_job_id req jobs).2 = jobs := by
  unfold concatenate_api
  by_cases h2 : req.urls.length < 2
  · rw [if_pos h2]
    exact ⟨⟨_, rfl⟩, rfl⟩
  · rw [if_neg h2, if_pos h]
    exact ⟨⟨_, rfl⟩, rfl⟩

theorem C7_witness :
    (∃ msg, (concatenate_api trivialEnv 0 "job-7"
      ⟨["http://a/1.mp4", "http://a/2.mp4"], "out.mp4", 5, false⟩ []).1 = .bad_request msg) ∧
    (concatenate_api trivialEnv 0 "job-7"
      ⟨["http://a/1.mp4", "http://a/2.mp4"], "out.mp4", 5, false⟩ []).2 = ([] : JobRegistry) :=
  C7_budget_out_of_range_rejected trivialEnv 0 "job-7" _ [] (Or.inl (by norm_num))

/-- C9: the download endpoint serves the artifact only for a job whose status
is `completed`; for a job in any non-completed state it returns the
`Job not completed` error, so a partial artifact is never downloadable. -/
theorem C9_artifact_only_when_completed (jobs : JobRegistry) (file_exists : String → Bool)
    (job_id : String) :
    (∀ p name, download_video_file jobs file_exists job_id = .file p name →
      ∃ j, jobs.lookup job_id = some j ∧ j.status = .completed) ∧
    (∀ j, jobs.lookup job_id = some j → j.status ≠ .completed →
      download_video_file jobs file_exists job_id = .not_completed) := by
  constructor
  · intro p name h
    unfold download_video_file at h
    cases hl : jobs.lookup job_id with
    | none => rw [hl] at h; exact DownloadResult.noConfusion h
    | some j =>
      rw [hl] at h
      by_cases hs : j.status = .completed
      · exact ⟨j, rfl, hs⟩
      · simp [hs] at h
  · intro j hl hs
    unfold download_video_file
    rw [hl]
    simp [hs]

/-- A terminal failed job, for the C9 witness. -/
def failedJob9 : Job :=
  { status := .failed, created_at := 0
    error := some "Failed to download: http://bad/x.mp4" }

theorem C9_witness :
    download_video_file [("job-9", failedJob9)] (fun _ => true) "job-9" = .not_completed :=
  (C9_artifact_only_when_completed [("job-9", failedJob9)] (fun _ => true) "job-9").2
    failedJob9 (by decide) (by decide)

/-- C10: `get_file_size_mb` is total — on a path whose size cannot be read it
returns 0 instead of raising — so a missing output file passes every
`size > budget` check for any positive budget. -/
theorem C10_missing_file_reads_zero (fs : String → Option ℕ) (p : String) (budget : ℚ)
    (h : fs p = none) (hb : 0 < budget) :
    get_file_size_mb fs p = 0 ∧ ¬ get_file_size_mb fs p > budget := by
  unfold get_file_size_mb
  rw [h]
  exact ⟨rfl, fun hc => absurd hb (by linarith)⟩

theorem C10_witness :
    get_file_size_mb (fun _ => none) "/tmp/videos/a_out.mp4" = 0 ∧
    ¬ get_file_size_mb (fun _ => none) "/tmp/videos/a_out.mp4" > 100 :=
  C10_missing_file_reads_zero (fun _ => none) "/tmp/videos/a_out.mp4" 100 rfl (by norm_num)

/-- The web download loop stops at the first URL that fails to download or to
probe as valid media, marking the job failed with a message naming that URL
and having attempted exactly the first `i + 1` downloads. -/
theorem download_loop_first_failure (env : WorkerEnv) (n : ℕ) :
    ∀ (i : ℕ) (l : List String) (s : ℕ) (j : Job),
      i < l.length →
      (∀ k, k < i → env.downloadOk (s + k) = true ∧ env.probeOk (s + k) = true) →
      (env.downloadOk (s + i) = false ∨
        (env.downloadOk (s + i) = true ∧ env.probeOk (s + i) = false)) →
      download_loop env n l s j =
        some ({ j with status := .failed,
                       error := some (if env.downloadOk (s + i) = true then
                           "Invalid video file: " ++ l.getD i ""
                         else "Failed to download: " ++ l.getD i "") }, s + i + 1) := by
  intro i
  induction i with
  | zero =>
    intro l s j hlen _ hfail
    match l, hlen with
    | u :: rest, _ =>
      rcases hfail with hd | ⟨hd, hp⟩
      · simp only [Nat.add_zero] at hd
        simp [download_loop, hd]
      · simp only [Nat.add_zero] at hd hp
        simp [download_loop, hd, hp]
  | succ i ih =>
    intro l s j hlen hok hfail
    match l, hlen with
    | u :: rest, hlen =>
      have h0 := hok 0 (Nat.succ_pos i)
      simp only [Nat.add_zero] at h0
      have hrec := ih rest (s + 1) { j with status := .downloading_video (s + 1) n }
        (by simpa using Nat.lt_of_succ_lt_succ hlen)
        (fun k hk => by
          have h := hok (k + 1) (by omega)
          rwa [show s + (k + 1) = s + 1 + k by omega] at h)
        (by rw [show s + 1 + i = s + (i + 1) by omega]; exact hfail)
      unfold download_loop
      rw [if_pos h0.1, if_pos h0.2, hrec,
        show s + 1 + i = s + (i + 1) by omega]
      simp [List.getD_cons_succ]

/-- C8: the first source URL that fails to download or fails media validation
moves the job straight to `failed` with an error naming that URL; no later URL
is processed, and the download endpoint refuses to serve an artifact for the
job. -/
theorem C8_first_failure_fails_job (env : WorkerEnv) (job_id : String) (urls : List String)
    (output_name : String) (max_size_mb : ℚ) (j : Job) (i : ℕ)
    (hi : i < urls.length)
    (hok : ∀ k, k < i → env.downloadOk k = true ∧ env.probeOk k = true)
    (hfail : env.downloadOk i = false ∨
      (env.downloadOk i = true ∧ env.probeOk i = false)) :
    (process_concatenation env job_id urls output_name max_size_mb j).job.status = .failed ∧
    ((process_concatenation env job_id urls output_name max_size_mb j).job.error =
        some ("Failed to download: " ++ urls.getD i "") ∨
      (process_concatenation env job_id urls output_name max_size_mb j).job.error =
        some ("Invalid video file: " ++ urls.getD i "")) ∧
    (process_concatenation env job_id urls output_name max_size_mb j).processed = i + 1 ∧
    (∀ file_exists,
      download_video_file
        [(job_id, (process_concatenation env job_id urls output_name max_size_mb j).job)]
        file_exists job_id = .not_completed) := by
  have hl := download_loop_first_failure env urls.length i urls 0
    { j with status := .downloading_videos }
    hi
    (fun k hk => by simpa using hok k hk)
    (by simpa using hfail)
  simp only [Nat.zero_add] at hl
  have hr : process_concatenation env job_id urls output_name max_size_mb j =
      ⟨{ j with status := .failed, error := some (if env.downloadOk i = true then "Invalid video file: " ++ urls.getD i "" else "Failed to download: " ++ urls.getD i "") }, false, i + 1⟩ := by
    unfold process_concatenation
    dsimp only
    rw [hl]
  rw [hr]
  refine ⟨rfl, ?_, rfl, ?_⟩
  · by_cases hd : env.downloadOk i = true
    · right; rw [if_pos hd]
    · left; rw [if_neg hd]
  · intro file_exists
    unfold download_video_file
    simp [List.lookup]

/-- A concrete environment whose first download fails, for the C8 witness. -/
def c8Env : WorkerEnv where
  downloadOk := fun _ => false
  probeOk := fun _ => true
  concat_result := none
  compressEnv :=
    { ffmpeg_ok := true, ffprobe_ok := true, duration := none
      attempt_result := fun _ _ => .ffmpeg_error }

theorem C8_witness :
    (process_concatenation c8Env "job-8" ["http://bad/x.mp4", "http://a/2.mp4"] "out.mp4" 100
        { status := .queued, created_at := 0 }).job.status = .failed ∧
    ((process_concatenation c8Env "job-8" ["http://bad/x.mp4", "http://a/2.mp4"] "out.mp4" 100
        { status := .queued, created_at := 0 }).job.error =
        some ("Failed to download: " ++ "http://bad/x.mp4") ∨
      (process_concatenation c8Env "job-8" ["http://bad/x.mp4", "http://a/2.mp4"] "out.mp4" 100
        { status := .queued, created_at := 0 }).job.error =
        some ("Invalid video file: " ++ "http://bad/x.mp4")) ∧
    (process_concatenation c8Env "job-8" ["http://bad/x.mp4", "http://a/2.mp4"] "out.mp4" 100
        { status := .queued, created_at := 0 }).processed = 0 + 1 ∧
    download_video_file
      [("job-8", (process_concatenation c8Env "job-8" ["http://bad/x.mp4", "http://a/2.mp4"]
          "out.mp4" 100 { status := .queued, created_at := 0 }).job)]
      (fun _ => true) "job-8" = .not_completed := by
  have h := C8_first_failure_fails_job c8Env "job-8" ["http://bad/x.mp4", "http://a/2.mp4"]
    "out.mp4" 100 { status := .queued, created_at := 0 } 0
    (by decide) (fun k hk => absurd hk (by omega)) (Or.inl rfl)
  exact ⟨h.1, by simpa using h.2.1, h.2.2.1, h.2.2.2 (fun _ => true)⟩

/-- Environment for the C3 failing input: the first download fails, all other
tools available. -/
def c3Env : WorkerEnv where
  downloadOk := fun _ => false
  probeOk := fun _ => true
  concat_result := none
  compressEnv :=
    { ffmpeg_ok := true, ffprobe_ok := true, duration := none
      attempt_result := fun _ _ => .ffmpeg_error }

/-- C3: the claim says the per-job temp workspace is removed on every exit
path of the worker.  Evaluating the worker on a job whose first download
fails shows the early `return` at web_app.py line 205 skips the
`shutil.rmtree(temp_dir)` at line 229: the job is `failed` and the temp
directory was not removed. -/
theorem C3_download_failure_leaks_temp_dir :
    (process_concatenation c3Env "job-3" ["http://a/1.mp4", "http://a/2.mp4"] "out.mp4" 100
        { status := .queued, created_at := 0 }).temp_dir_removed = false ∧
    (process_concatenation c3Env "job-3" ["http://a/1.mp4", "http://a/2.mp4"] "out.mp4" 100
        { status := .queued, created_at := 0 }).job.status = .failed := by
  exact ⟨rfl, rfl⟩

/-- Environment for the C1 failing input: both downloads and the concatenation
succeed, ffmpeg/ffprobe are available, the concatenated output is 200 MB
(209715200 bytes) against a 100 MB budget, and every compression attempt
would produce a 50 MB file. -/
def c1Env : WorkerEnv where
  downloadOk := fun _ => true
  probeOk := fun _ => true
  concat_result := some 209715200
  compressEnv :=
    { ffmpeg_ok := true, ffprobe_ok := true, duration := some 60
      attempt_result := fun _ _ => .output 52428800 }

/-- C1: the claim says a total compression failure still leaves the job
`completed` with the pre-compression file.  In the code, entering the
compression path calls `compress_video(output_path, temp_compressed,
max_size_mb)` (web_app.py line 273), binding the temp path string to
`target_size_mb`; the comparison at concat_videos.py line 72 then raises
TypeError, which `concatenate_videos_with_tracking` catches and turns into a
False return, so the worker marks the job `failed` — even though every
external step succeeded and the compression handling at lines 297-304 was
meant to keep the original and complete the job. -/
theorem C1_compression_path_fails_job :
    (process_concatenation c1Env "job-1" ["http://a/1.mp4", "http://a/2.mp4"] "out.mp4" 100
        { status := .queued, created_at := 0 }).job.status = .failed ∧
    (process_concatenation c1Env "job-1" ["http://a/1.mp4", "http://a/2.mp4"] "out.mp4" 100
        { status := .queued, created_at := 0 }).job.error =
      some "Failed to concatenate videos" ∧
    compress_video c1Env.compressEnv 209715200
      (.str "/tmp/videos/job-1_out.mp4.compressed.mp4") = .error .typeError := by
  refine ⟨?_, ?_, rfl⟩ <;>
    norm_num [process_concatenation, download_loop, concatenate_videos_with_tracking,
      compress_video, check_ffmpeg_available, c1Env, bytes_to_mb]

/-- `ratFloor` at a concrete value, via the floor characterisation. -/
theorem ratFloor_eq_of (q : ℚ) (z : ℤ) (h1 : (z : ℚ) ≤ q) (h2 : q < z + 1) :
    ratFloor q = z := by
  rw [ratFloor_eq_floor]
  exact Int.floor_eq_iff.mpr ⟨h1, h2⟩

/-- The 1-based attempt ladder, evaluated. -/
theorem enumerated_attempts_eq :
    enumerated_attempts =
      [(1, ⟨23, "medium"⟩), (2, ⟨25, "medium"⟩), (3, ⟨27, "fast"⟩), (4, ⟨30, "fast"⟩)] := rfl

/-- If every produced attempt output is above the target, the attempt loop
exhausts the ladder and reports failure — no attempt is kept. -/
theorem compress_attempt_loop_all_above (env : CompressEnv) (t d : ℚ)
    (hbig : ∀ a c b, env.attempt_result a c = .output b → t < bytes_to_mb b) :
    ∀ l, compress_attempt_loop env t d l = .failure := by
  intro l
  induction l with
  | nil => rfl
  | cons hd tl ih =>
    obtain ⟨a, p⟩ := hd
    unfold compress_attempt_loop
    cases hres : env.attempt_result a (attempt_cmd t d a p) with
    | output b =>
      dsimp only
      rw [if_neg (not_le.mpr (hbig a _ b hres))]
      exact ih
    | ffmpeg_error => exact ih
    | timeout_expired => exact ih
    | raised => exact ih
    | no_output => exact ih

/-- A promoted attempt always satisfies the size target. -/
theorem compress_attempt_loop_success_le (env : CompressEnv) (t d : ℚ) :
    ∀ l b, compress_attempt_loop env t d l = .success b → bytes_to_mb b ≤ t := by
  intro l
  induction l with
  | nil => intro b h; exact CompressResult.noConfusion h
  | cons hd tl ih =>
    obtain ⟨a, p⟩ := hd
    intro b h
    unfold compress_attempt_loop at h
    cases hres : env.attempt_result a (attempt_cmd t d a p) with
    | output sz =>
      rw [hres] at h
      dsimp only at h
      by_cases hle : bytes_to_mb sz ≤ t
      · rw [if_pos hle] at h
        injection h with h2
        subst h2
        exact hle
      · rw [if_neg hle] at h
        exact ih b h
    | ffmpeg_error => rw [hres] at h; exact ih b h
    | timeout_expired => rw [hres] at h; exact ih b h
    | raised => rw [hres] at h; exact ih b h
    | no_output => rw [hres] at h; exact ih b h

/-- Environment for the C2 counterexample: an oversized 200 MB input,
tools available, and every attempt producing an output of `(110 + a)` MB —
always achieved, never within the 100 MB target. -/
def c2Env : CompressEnv where
  ffmpeg_ok := true
  ffprobe_ok := true
  duration := some 60
  attempt_result := fun a _ => .output ((110 + a) * 1048576)

/-- C2 counterexample: with attempts achieving 111, 112, 113 and 114 MB
(smallest achieved 111 MB), `compress_video` returns failure (False) —
it does not return the smallest achieved attempt as a best-effort success. -/
theorem C2_counterexample :
    compress_video c2Env 209715200 (.num 100) = .ok .failure := by
  norm_num [compress_video, check_ffmpeg_available, c2Env, bytes_to_mb,
    compress_attempt_loop, enumerated_attempts_eq]

/-- C2 (amended): if no attempt produces a file within the target,
`compress_video` returns failure outright (every oversized attempt is
deleted, nothing is promoted); when it does return a promoted success, that
result satisfies `size ≤ target`. -/
theorem C2_exhaustion_fails_and_success_meets_target (env : CompressEnv)
    (input_size_bytes : ℕ) (t : ℚ)
    (hover : t < bytes_to_mb input_size_bytes)
    (hbig : ∀ a c b, env.attempt_result a c = .output b → t < bytes_to_mb b) :
    compress_video env input_size_bytes (.num t) = .ok .failure ∧
    ∀ (env2 : CompressEnv) (m : ℕ) (t2 : ℚ) (b : ℕ),
      compress_video env2 m (.num t2) = .ok (.success b) → bytes_to_mb b ≤ t2 := by
  constructor
  · have hc : ¬ bytes_to_mb input_size_bytes ≤ t := not_le.mpr hover
    by_cases hav : check_ffmpeg_available env = true
    · cases hdur : env.duration with
      | none => simp [compress_video, hav, hc, hdur]
      | some d =>
        by_cases hd0 : d = 0
        · simp [compress_video, hav, hc, hdur, hd0]
        · simp [compress_video, hav, hc, hdur, hd0,
            compress_attempt_loop_all_above env t d hbig]
    · simp [compress_video, hav]
  · intro env2 m t2 b h
    by_cases hav : check_ffmpeg_available env2 = true
    · by_cases hle : bytes_to_mb m ≤ t2
      · simp [compress_video, hav, hle] at h
      · cases hdur : env2.duration with
        | none => simp [compress_video, hav, hle, hdur] at h
        | some d =>
          by_cases hd0 : d = 0
          · simp [compress_video, hav, hle, hdur, hd0] at h
          · simp [compress_video, hav, hle, hdur, hd0] at h
            exact compress_attempt_loop_success_le env2 t2 d enumerated_attempts b h
    · simp [compress_video, hav] at h

/-- Environment in which the first attempt already meets the target
(80 MB ≤ 100 MB), for the C2 witness. -/
def c2EnvB : CompressEnv where
  ffmpeg_ok := true
  ffprobe_ok := true
  duration := some 60
  attempt_result := fun _ _ => .output 83886080

theorem C2_witness :
    (100 : ℚ) < bytes_to_mb 209715200 ∧
    compress_video c2Env 209715200 (.num 100) = .ok .failure ∧
    bytes_to_mb 83886080 ≤ 100 := by
  have hbig : ∀ a c b, c2Env.attempt_result a c = .output b → (100 : ℚ) < bytes_to_mb b := by
    intro a c b h
    simp only [c2Env] at h
    injection h with h2
    subst h2
    have hcast : (((110 + a) * 1048576 : ℕ) : ℚ) = ((110 : ℚ) + a) * 1048576 := by
      push_cast
      ring
    have hdiv : (((110 + a) * 1048576 : ℕ) : ℚ) / (1024 * 1024) = (110 : ℚ) + a := by
      rw [hcast]
      rw [show ((1024 : ℚ) * 1024) = 1048576 by norm_num]
      rw [mul_div_assoc]
      norm_num
    have ha : (0 : ℚ) ≤ (a : ℚ) := Nat.cast_nonneg a
    rw [bytes_to_mb, hdiv]
    linarith
  have h := C2_exhaustion_fails_and_success_meets_target c2Env 209715200 100
    (by norm_num [bytes_to_mb]) hbig
  refine ⟨by norm_num [bytes_to_mb], h.1, h.2 c2EnvB 209715200 100 83886080 ?_⟩
  norm_num [compress_video, check_ffmpeg_available, c2EnvB, bytes_to_mb,
    compress_attempt_loop, enumerated_attempts_eq]

/-- C4 counterexample: a submission with a single source URL is not accepted —
the endpoint rejects it with `At least 2 URLs required` and no job is
created. -/
theorem C4_counterexample :
    concatenate_api trivialEnv 0 "job-4" ⟨["http://a/only.mp4"], "out.mp4", 100, false⟩ [] =
      (.bad_request "At least 2 URLs required", ([] : JobRegistry)) := rfl

/-- C4 (amended): a single-URL submission is rejected by the web API; only
the CLI pipeline accepts a single source, copying the downloaded file to the
output path and then applying exactly the same size-check-and-compression
path as the multi-source case (same final result for the same byte size and
compression environment). -/
theorem C4_single_source_cli_only (wenv : WorkerEnv) (now : ℚ) (new_job_id : String)
    (u output_name : String) (mx : ℚ) (sync : Bool) (jobs : JobRegistry)
    (env1 env2 : CliEnv) (n : ℕ) (u1 u2 : String) :
    concatenate_api wenv now new_job_id ⟨[u], output_name, mx, sync⟩ jobs =
      (.bad_request "At least 2 URLs required", jobs) ∧
    (env1.compressEnv = env2.compressEnv →
      env1.downloadOk 0 = true → env1.probeOk 0 = true →
      env1.downloaded_size 0 = n →
      env2.downloadOk 0 = true → env2.probeOk 0 = true →
      env2.downloadOk 1 = true → env2.probeOk 1 = true →
      env2.concat_result = some n →
      process_videos_from_urls env1 [u] mx = process_videos_from_urls env2 [u1, u2] mx) := by
  constructor
  · rfl
  · intro hce hd1 hp1 hsz hd2a hp2a hd2b hp2b hcr
    simp [process_videos_from_urls, cli_download_loop, check_ffmpeg,
      hce, hd1, hp1, hsz, hd2a, hp2a, hd2b, hp2b, hcr]

/-- Shared compression environment for the C4 witness. -/
def c4Compress : CompressEnv where
  ffmpeg_ok := true
  ffprobe_ok := true
  duration := some 60
  attempt_result := fun _ _ => .output 83886080

/-- Single-URL CLI environment: the one downloaded file is 200 MB. -/
def c4Env1 : CliEnv where
  downloadOk := fun _ => true
  probeOk := fun _ => true
  downloaded_size := fun _ => 209715200
  concat_result := none
  compressEnv := c4Compress

/-- Two-URL CLI environment whose concatenated output is the same 200 MB. -/
def c4Env2 : CliEnv where
  downloadOk := fun _ => true
  probeOk := fun _ => true
  downloaded_size := fun _ => 0
  concat_result := some 209715200
  compressEnv := c4Compress

theorem C4_witness :
    concatenate_api trivialEnv 0 "job-4b" ⟨["http://a/only.mp4"], "out.mp4", 100, false⟩ [] =
      (.bad_request "At least 2 URLs required", ([] : JobRegistry)) ∧
    process_videos_from_urls c4Env1 ["http://a/only.mp4"] 100 =
      process_videos_from_urls c4Env2 ["http://a/1.mp4", "http://a/2.mp4"] 100 := by
  have h := C4_single_source_cli_only trivialEnv 0 "job-4b" "http://a/only.mp4" "out.mp4" 100
    false [] c4Env1 c4Env2 209715200 "http://a/1.mp4" "http://a/2.mp4"
  exact ⟨h.1, h.2 rfl rfl rfl rfl rfl rfl rfl rfl rfl⟩

/-- C5 counterexample: with a 100 MB budget and a 1,000,000-second duration
the first attempt computes a video bitrate of 677 bps — far below the
claimed ≈300 kbps floor; no floor is applied. -/
theorem C5_counterexample :
    target_bitrate 100 1000000 1 = 677 ∧ (677 : ℤ) < 300000 := by
  refine ⟨?_, by norm_num⟩
  simp only [target_bitrate, pyInt, ratFloor_eq_floor]
  rw [if_pos (by norm_num)]
  rw [Int.floor_eq_iff]
  norm_num

/-- C5 (amended): the video bitrate for attempt `k` is
`int(target·8·1024·1024·(1 − 0.05·k)/duration · 0.85)` with no lower floor —
for every positive threshold there is a duration driving it to 0 — and the
audio bitrate is fixed at 96 kbps, not derived or floored. -/
theorem C5_no_bitrate_floor (f : ℤ) (hf : 0 < f) :
    ∃ d : ℚ, 0 < d ∧ target_bitrate 100 d 1 = 0 ∧ target_bitrate 100 d 1 < f ∧
      ∀ p, (attempt_cmd 100 d 1 p).audio_bitrate = "96k" := by
  have h0 : target_bitrate 100 677380097 1 = 0 := by
    simp only [target_bitrate, pyInt, ratFloor_eq_floor]
    rw [if_pos (by norm_num)]
    rw [Int.floor_eq_iff]
    norm_num
  exact ⟨677380097, by norm_num, h0, by rw [h0]; exact hf, fun p => rfl⟩

theorem C5_witness :
    (0 : ℤ) < 1 ∧
    (∃ d : ℚ, 0 < d ∧ target_bitrate 100 d 1 = 0 ∧ target_bitrate 100 d 1 < 1 ∧
      ∀ p, (attempt_cmd 100 d 1 p).audio_bitrate = "96k") :=
  ⟨by norm_num, C5_no_bitrate_floor 1 (by norm_num)⟩

theorem round_half_even_nonpos (x : ℚ) (hx : x ≤ 0) : round_half_even x ≤ 0 := by
  have hf : ratFloor x ≤ 0 := by
    rw [ratFloor_eq_floor]
    exact Int.cast_nonpos.mp ((Int.floor_le x).trans hx)
  unfold round_half_even
  split_ifs with h1 h2 h3
  · exact hf
  · rw [not_lt] at h1
    have hneg : ((ratFloor x : ℤ) : ℚ) < 0 := by linarith
    have : ratFloor x < 0 := by exact_mod_cast hneg
    omega
  · exact hf
  · rw [not_lt] at h1
    have hneg : ((ratFloor x : ℤ) : ℚ) < 0 := by linarith
    have : ratFloor x < 0 := by exact_mod_cast hneg
    omega

theorem pyRound1_nonpos (q : ℚ) (hq : q ≤ 0) : pyRound1 q ≤ 0 := by
  unfold pyRound1
  have h := round_half_even_nonpos (q * 10) (by linarith)
  have h2 : ((round_half_even (q * 10) : ℤ) : ℚ) ≤ 0 := by exact_mod_cast h
  linarith

/-- C6 counterexample: with a 100 MB original and a 120 MB final size the
recorded ratio is −20.0, not 0 — the final ≥ original case is not guarded. -/
theorem C6_counterexample :
    compression_ratio_calc 100 120 = -20 ∧ (-20 : ℚ) ≠ 0 := by
  constructor
  · unfold compression_ratio_calc pyRound1
    have h1 : ((100 : ℚ) - 120) / 100 * 100 * 10 = -200 := by norm_num
    rw [h1]
    have hf : ratFloor (-200 : ℚ) = -200 := ratFloor_eq_of _ _ (by norm_num) (by norm_num)
    unfold round_half_even
    rw [hf]
    norm_num
  · norm_num

/-- C6 (amended): the recorded ratio is `round(((original − final) /
original) × 100, 1)` with no guard; whenever the final size is at least the
original, the recorded value is ≤ 0 (and negative for a strictly larger
final size, e.g. −20.0), rather than being clamped to 0. -/
theorem C6_ratio_not_clamped (original final : ℚ)
    (h0 : 0 < original) (hge : original ≤ final) :
    compression_ratio_calc original final ≤ 0 := by
  unfold compression_ratio_calc
  apply pyRound1_nonpos
  have hnum : original - final ≤ 0 := by linarith
  have hdiv : (original - final) / original ≤ 0 := by
    rw [div_nonpos_iff]
    exact Or.inr ⟨hnum, h0.le⟩
  linarith

theorem C6_witness :
    (0 : ℚ) < 100 ∧ (100 : ℚ) ≤ 120 ∧ compression_ratio_calc 100 120 ≤ 0 :=
  ⟨by norm_num, by norm_num, C6_ratio_not_clamped 100 120 (by norm_num) (by norm_num)⟩

end Claims
